import Mathlib

/-!
Shallow embedding of the browser-automation scripts of this repository
(`assignment.js` and the unnamed sibling variant): locator resolution, the
interaction tools, screenshot path allocation, field editing, and the driver
loop.  Playwright, DOM and filesystem primitives are modelled by their
documented contracts; their outcomes on a given run are supplied by explicit
"world" parameters, so every definition is executable.
-/

namespace Automation

/-- A JavaScript computation either returns a value or throws an error
carrying a message (`error.message`). -/
abbrev JSResult (α : Type) := Except String α

/-- Outcome of a fallible primitive call: `none` models a call that resolves,
`some msg` one that rejects with an error whose message is `msg`. -/
def primOutcome : Option String → JSResult Unit
  | none => .ok ()
  | some msg => .error msg

/-- Which browsing context a locator searches. -/
inductive Scope
  | mainDoc
  | firstFrame
deriving DecidableEq, Repr

/-- How a locator interprets its hint: structural CSS selector or visible
text (`getByText`). -/
inductive LocKind
  | css
  | text
deriving DecidableEq, Repr

/-- Model of a Playwright locator: browsing context, hint interpretation, the
hint string, and whether `.first()` restricted it to the first match in
document order. -/
structure Locator where
  scope : Scope
  kind : LocKind
  hint : String
  onlyFirst : Bool
deriving DecidableEq, Repr

/-- Restriction to the first match, as in `.first()`. -/
def Locator.firstMatch (l : Locator) : Locator := { l with onlyFirst := true }

/-- Model of `page.locator(s)`. -/
def pageLocator (s : String) : Locator := ⟨.mainDoc, .css, s, false⟩

/-- Model of `page.getByText(s)`. -/
def pageGetByText (s : String) : Locator := ⟨.mainDoc, .text, s, false⟩

/-- Model of `page.frameLocator("iframe").first().locator(s)`. -/
def frameCssLocator (s : String) : Locator := ⟨.firstFrame, .css, s, false⟩

/-- Model of `page.frameLocator("iframe").first().getByText(s)`. -/
def frameGetByText (s : String) : Locator := ⟨.firstFrame, .text, s, false⟩

/-- JavaScript truthiness of the value `page.locator(selector)`: Playwright's
`locator` always returns a locator object, and every object is truthy in
JavaScript, so this is constantly `true`. -/
def locatorTruthy (_ : Locator) : Bool := true

/-- The `getLocator` helper of the unnamed variant: it tests
`if (page.locator(selector))` — the truthiness of the locator object itself —
and returns the main-page locator when the test passes, else the locator in
the first iframe. -/
def getLocator (selector : String) : Locator :=
  if locatorTruthy (pageLocator selector) then (pageLocator selector).firstMatch
  else (frameCssLocator selector).firstMatch

/-- The screenshots output directory (`path.join(process.cwd(), "screenshots")`,
written relative to the working directory). -/
def screenshotsDir : String := "screenshots"

/-- The fixed debug dump path `path.join(screenshotsDir, "iframe_debug.html")`. -/
def iframeDebugPath : String := screenshotsDir ++ "/iframe_debug.html"

/-- The character rendering of one decimal digit, as used by JavaScript's
`Number.prototype.toString()` for each base-10 digit. -/
def digitChar : Nat → Char
  | 0 => '0' | 1 => '1' | 2 => '2' | 3 => '3' | 4 => '4'
  | 5 => '5' | 6 => '6' | 7 => '7' | 8 => '8' | 9 => '9'
  | _ => '?'

/-- JavaScript `(n).toString()` for a non-negative integer: base-10 digits,
most significant first, no leading zeros; `0` renders as `"0"`. -/
def jsNatRepr (n : Nat) : List Char :=
  if n = 0 then ['0'] else ((Nat.digits 10 n).reverse).map digitChar

/-- JavaScript `String.prototype.padStart(len, c)`: left-pad to length `len`
with copies of `c` (no-op when already long enough). -/
def padStart (s : List Char) (len : Nat) (c : Char) : List Char :=
  List.replicate (len - s.length) c ++ s

/-- The fixed leading part of every screenshot path. -/
def pathHead : List Char := "screenshots/screenshot_".data

/-- The fixed trailing part of every screenshot path. -/
def pathTail : List Char := ".png".data

/-- The path rendered when the screenshot counter holds value `c`:
`screenshot_<c padded to width 3>.png` under `screenshotsDir`. -/
def screenshotPathFor (c : Nat) : String :=
  String.mk (pathHead ++ padStart (jsNatRepr c) 3 '0' ++ pathTail)

/-- `getScreenshotPath`: increments the module-level counter, then renders
the path from the new counter value.  State-passing form: takes the current
counter and returns the new counter with the path. -/
def getScreenshotPath (counter : Nat) : Nat × String :=
  (counter + 1, screenshotPathFor (counter + 1))

/-- The counter value and list of paths produced by `n` successive calls of
`getScreenshotPath` starting from the module-load state `counter = 0`. -/
def screenshotPaths : Nat → Nat × List String
  | 0 => (0, [])
  | n + 1 =>
      let p := screenshotPaths n
      let q := getScreenshotPath p.1
      (q.1, p.2 ++ [q.2])

/-- Left inverse of digit rendering: fold the characters back into a number,
reading each as its code point minus 48. -/
def decodeDigits (cs : List Char) : Nat :=
  cs.foldl (fun acc c => 10 * acc + (c.toNat - 48)) 0

theorem decodeDigits_replicate_zero (k : Nat) (cs : List Char) :
    decodeDigits (List.replicate k '0' ++ cs) = decodeDigits cs := by
  induction k with
  | zero => simp
  | succ k ih =>
      simpa [List.replicate_succ, decodeDigits] using ih

theorem digitChar_toNat (d : Nat) (hd : d < 10) : (digitChar d).toNat - 48 = d := by
  interval_cases d <;> decide

theorem decodeDigits_jsNatRepr (n : Nat) : decodeDigits (jsNatRepr n) = n := by
  by_cases h0 : n = 0
  · subst h0; decide
  · have hfold :
        ∀ (L : List Nat), (∀ d ∈ L, d < 10) →
          L.foldr (fun d a => 10 * a + ((digitChar d).toNat - 48)) 0 = Nat.ofDigits 10 L := by
      intro L
      induction L with
      | nil => intro _; simp [Nat.ofDigits_nil]
      | cons d L ih =>
          intro hlt
          have hd : d < 10 := hlt d (List.mem_cons_self d L)
          have hL : ∀ x ∈ L, x < 10 := fun x hx => hlt x (List.mem_cons_of_mem d hx)
          simp [Nat.ofDigits_cons, ih hL, digitChar_toNat d hd]
          ring
    have hlt : ∀ d ∈ Nat.digits 10 n, d < 10 := fun d hd =>
      Nat.digits_lt_base (by norm_num) hd
    have h1 : jsNatRepr n = ((Nat.digits 10 n).reverse).map digitChar := by
      simp [jsNatRepr, h0]
    rw [decodeDigits, h1, List.foldl_map, List.foldl_reverse]
    exact (hfold _ hlt).trans (Nat.ofDigits_digits 10 n)

theorem decodeDigits_padStart (s : List Char) (len : Nat) :
    decodeDigits (padStart s len '0') = decodeDigits s := by
  simp [padStart, decodeDigits_replicate_zero]

theorem screenshotPathFor_injective : Function.Injective screenshotPathFor := by
  intro a b hab
  have hdata : pathHead ++ padStart (jsNatRepr a) 3 '0' ++ pathTail =
      pathHead ++ padStart (jsNatRepr b) 3 '0' ++ pathTail :=
    congrArg String.data hab
  have hdata' : pathHead ++ (padStart (jsNatRepr a) 3 '0' ++ pathTail) =
      pathHead ++ (padStart (jsNatRepr b) 3 '0' ++ pathTail) := by
    simpa [List.append_assoc] using hdata
  have hmid : padStart (jsNatRepr a) 3 '0' = padStart (jsNatRepr b) 3 '0' :=
    List.append_cancel_right (List.append_cancel_left hdata')
  have := congrArg decodeDigits hmid
  rwa [decodeDigits_padStart, decodeDigits_padStart,
    decodeDigits_jsNatRepr, decodeDigits_jsNatRepr] at this

theorem screenshotPaths_spec (n : Nat) :
    screenshotPaths n = (n, (List.range n).map (fun i => screenshotPathFor (i + 1))) := by
  induction n with
  | zero => rfl
  | succ n ih => simp [screenshotPaths, ih, getScreenshotPath, List.range_succ]

/-- Environment fixing the outcome of every browser primitive a tool may
invoke during one invocation.  `actionErr l` is the outcome of the whole
resolve/wait-for-visible/act block on locator `l` (`none` = the element was
found, became visible in time and the action succeeded); `visibleAt l` is the
instant (ms) at which `l`'s element becomes visible, if ever; `matchCount l`
is how many elements `l` matches; the remaining fields are the outcomes of
`page.goto`, the post-navigation wait, `page.screenshot`, `fs.writeFileSync`,
and the first frame's `body` `innerHTML()` read. -/
structure ToolWorld where
  actionErr : Locator → Option String
  visibleAt : Locator → Option Nat
  matchCount : Locator → Nat
  countErr : Locator → Option String
  gotoErr : Option String
  waitLoadErr : Option String
  screenshotErr : Option String
  writeFileErr : Option String
  frameBodyHTML : JSResult String

/-- The `open_url` tool: `page.goto(url)` then the post-navigation wait; no
try/catch guards either await, so a rejection propagates to the caller. -/
def openURL_exec (w : ToolWorld) (url : String) : JSResult String := do
  primOutcome w.gotoErr
  primOutcome w.waitLoadErr
  pure ("Successfully navigated to " ++ url)

/-- The `take_screenshot` tool: `page.screenshot`, allocate the next path,
`fs.writeFileSync`; none of the awaits is guarded by try/catch.  Returns the
new counter with the tool's result string (the saved file path). -/
def takeScreenShot_exec (w : ToolWorld) (counter : Nat) : JSResult (Nat × String) := do
  primOutcome w.screenshotErr
  let p := getScreenshotPath counter
  primOutcome w.writeFileErr
  pure p

instance {ε α : Type} [DecidableEq ε] [DecidableEq α] : DecidableEq (Except ε α) := fun x y =>
  match x, y with
  | .error e, .error f => decidable_of_iff (e = f) (by simp)
  | .error _, .ok _ => isFalse (by simp)
  | .ok _, .error _ => isFalse (by simp)
  | .ok a, .ok b => decidable_of_iff (a = b) (by simp)

/-- The first frame's body HTML with the `.catch(() => "")` fallback
applied. -/
def frameHTMLorEmpty (w : ToolWorld) : String :=
  match w.frameBodyHTML with
  | .ok h => h
  | .error _ => ""

/-- The invocation completed by returning a value; `false` means an
exception escaped past the tool boundary. -/
def JSResult.returnsOk {α : Type} : JSResult α → Bool
  | .ok _ => true
  | .error _ => false

/-- Result of one `click_element` invocation: the returned (or thrown)
outcome, the files written during the call, and the strategy that performed
the click, if any. -/
structure ClickResult where
  outcome : JSResult String
  writes : List (String × String)
  resolvedVia : Option (Scope × LocKind)
deriving DecidableEq, Repr

/-- The `click_element` tool of the unnamed variant: CSS via `getLocator`,
then text on the main page, then text inside the first iframe; when all three
fail it reads the first frame's body HTML (falling back to `""` via
`.catch(() => "")`), dumps it to the fixed debug path, and returns a failure
string; the outer try/catch turns any remaining error — e.g. a
`writeFileSync` failure — into a result string. -/
def clickElement_exec (w : ToolWorld) (selector : String) : ClickResult :=
  if w.actionErr (getLocator selector) = none then
    ⟨.ok ("✅ Clicked element with selector: " ++ selector), [], some (.mainDoc, .css)⟩
  else if w.actionErr ((pageGetByText selector).firstMatch) = none then
    ⟨.ok ("✅ Clicked element with text: \"" ++ selector ++ "\""), [], some (.mainDoc, .text)⟩
  else if w.actionErr ((frameGetByText selector).firstMatch) = none then
    ⟨.ok ("✅ Clicked element with text inside iframe: \"" ++ selector ++ "\""), [],
      some (.firstFrame, .text)⟩
  else
    let html := frameHTMLorEmpty w
    match w.writeFileErr with
    | some e => ⟨.ok ("❌ Error clicking element \"" ++ selector ++ "\": " ++ e), [], none⟩
    | none =>
        ⟨.ok ("❌ Failed to click element \"" ++ selector ++ "\". Dumped iframe HTML to "
            ++ iframeDebugPath),
          [(iframeDebugPath, html)], none⟩

/-- The `click_element` tool of `assignment.js`: four strategies in order —
CSS on the main page, text on the main page, CSS in the first iframe, text in
the first iframe; each runs under try/catch; exhausting all four returns a
failure string without any debug dump. -/
def clickElementA_exec (w : ToolWorld) (selector : String) : ClickResult :=
  if w.actionErr ((pageLocator selector).firstMatch) = none then
    ⟨.ok ("✅ Successfully clicked: " ++ selector ++ " (strategy 1)"), [], some (.mainDoc, .css)⟩
  else if w.actionErr ((pageGetByText selector).firstMatch) = none then
    ⟨.ok ("✅ Successfully clicked: " ++ selector ++ " (strategy 2)"), [], some (.mainDoc, .text)⟩
  else if w.actionErr ((frameCssLocator selector).firstMatch) = none then
    ⟨.ok ("✅ Successfully clicked: " ++ selector ++ " (strategy 3)"), [],
      some (.firstFrame, .css)⟩
  else if w.actionErr ((frameGetByText selector).firstMatch) = none then
    ⟨.ok ("✅ Successfully clicked: " ++ selector ++ " (strategy 4)"), [],
      some (.firstFrame, .text)⟩
  else
    ⟨.ok ("❌ Failed to click element: " ++ selector), [], none⟩

/-- The `clear_and_type` tool, outcome level: resolve via `getLocator`, wait
for visibility, triple-click, Backspace, type; the surrounding try/catch
turns any failure into a result string carrying the error message. -/
def clearAndType_exec (w : ToolWorld) (selector text : String) : JSResult String :=
  match w.actionErr (getLocator selector) with
  | none => .ok ("Typed \"" ++ text ++ "\" in " ++ selector)
  | some e => .ok ("Failed to clear and type in " ++ selector ++ ": " ++ e)

/-- JavaScript `input.timeout || 10000`: both `null` and `0` are falsy, so
either yields the 10000 ms default. -/
def jsOrDefault : Option Nat → Nat
  | none => 10000
  | some 0 => 10000
  | some n => n

/-- Contract of Playwright's `locator.waitFor({ state: "visible", timeout })`
with explicit elapsed time: if the element becomes visible at an instant
`t ≤ timeout` the wait resolves after `t` ms, otherwise it rejects with a
timeout error after exactly `timeout` ms. -/
def waitForVisible (visibleAt : Option Nat) (timeout : Nat) : JSResult Unit × Nat :=
  match visibleAt with
  | some t => if t ≤ timeout then (.ok (), t) else (.error "TimeoutError", timeout)
  | none => (.error "TimeoutError", timeout)

/-- The `wait_for_element` tool: applies the `|| 10000` default, waits on the
locator from `getLocator`, and converts a timeout error into a result string
naming the timeout used.  Returns the result together with the elapsed ms. -/
def waitForElement_exec (w : ToolWorld) (selector : String) (timeoutArg : Option Nat) :
    JSResult String × Nat :=
  let timeout := jsOrDefault timeoutArg
  let wr := waitForVisible (w.visibleAt (getLocator selector)) timeout
  (match wr.1 with
    | .ok () => .ok ("Element " ++ selector ++ " appeared")
    | .error _ =>
        .ok ("Element " ++ selector ++ " did not appear in " ++ toString timeout ++ "ms"),
   wr.2)

/-- The `find_elements` tool: counts the matches of the locator from
`getLocator`; zero matches yields a "No elements found" result (a success);
otherwise the first `min count 5` matches are listed (each `textContent` read
falls back to `""`); the try/catch turns a failing count into an error
string. -/
def findElements_exec (w : ToolWorld) (selector : String) : JSResult String :=
  match w.countErr (getLocator selector) with
  | some e => .ok ("Error finding elements: " ++ e)
  | none =>
      let count := w.matchCount (getLocator selector)
      if count = 0 then .ok ("No elements found for " ++ selector)
      else .ok ("Found " ++ toString count ++ " elements")

/-- The `dump_iframe_html` tool: read the first frame's body HTML and write
it to the fixed debug path; the try/catch turns either failure into a result
string. -/
def dumpIframeHTML_exec (w : ToolWorld) : JSResult String :=
  match w.frameBodyHTML with
  | .error e => .ok ("Failed to dump iframe HTML: " ++ e)
  | .ok _ =>
      match w.writeFileErr with
      | some e => .ok ("Failed to dump iframe HTML: " ++ e)
      | none => .ok ("Iframe HTML saved to " ++ iframeDebugPath)

/-- Outcome of `run(agent, input, { maxTurns })`, modelled from the
`@openai/agents` contract: the promise resolves with a final output when the
agent declares completion within the turn budget, rejects with
`MaxTurnsExceededError` when the cap is exhausted first, and rejects with the
underlying error on any other failure escaping the run. -/
inductive RunOutcome
  | completed (finalOutput : String)
  | maxTurnsExceeded
  | failed (msg : String)
deriving DecidableEq, Repr

/-- Agent-loop contract: a task the agent needs `steps` decision/tool-call
rounds to declare complete resolves within the cap iff `steps ≤ maxTurns`;
otherwise the run rejects with `MaxTurnsExceededError`. -/
def runAgent (maxTurns steps : Nat) : RunOutcome :=
  if steps ≤ maxTurns then .completed "done" else .maxTurnsExceeded

/-- Observable trace of one `executeAutomation()` call: how many times
`browser.close()` was invoked, which summary was logged, whether the
best-effort final screenshot was attempted, and the error (if any)
propagating out of the call. -/
structure DriverTrace where
  browserCloses : Nat
  completedLogged : Bool
  errorLogged : Bool
  finalScreenshotTried : Bool
  raised : Option String
deriving DecidableEq, Repr

/-- Environment for one `executeAutomation()` call: the agent run's outcome,
the outcome of the best-effort screenshot inside the catch block, and the
outcome of `browser.close()`. -/
structure DriverWorld where
  runOutcome : RunOutcome
  catchScreenshotErr : Option String
  closeErr : Option String
deriving Repr

/-- The `executeAutomation` driver: the try block awaits the agent run and on
resolution logs completion; the catch block logs the error and attempts one
best-effort screenshot whose own failure is swallowed by its inner try/catch;
the finally block always runs and calls `browser.close()` exactly once — only
an error thrown by `close` itself escapes the call (to be swallowed by
`.catch(console.error)` at the call site). -/
def executeAutomation (w : DriverWorld) : DriverTrace :=
  match w.runOutcome with
  | .completed _ =>
      { browserCloses := 1, completedLogged := true, errorLogged := false,
        finalScreenshotTried := false, raised := w.closeErr }
  | .maxTurnsExceeded =>
      { browserCloses := 1, completedLogged := false, errorLogged := true,
        finalScreenshotTried := true, raised := w.closeErr }
  | .failed _ =>
      { browserCloses := 1, completedLogged := false, errorLogged := true,
        finalScreenshotTried := true, raised := w.closeErr }

/-- `executeAutomation` with the run outcome determined by the round cap and
the number of rounds the task needs. -/
def executeAutomationCapped (maxTurns steps : Nat) (closeErr : Option String) : DriverTrace :=
  executeAutomation ⟨runAgent maxTurns steps, none, closeErr⟩

/-- Trace of one whole process run, from module load. -/
structure ProgramTrace where
  browserLaunched : Bool
  browserCloses : Nat
  initFailed : Bool
deriving DecidableEq, Repr

/-- Environment for a whole process run: the outcomes of `chromium.launch`,
`browser.newPage()`, the screenshots-directory preparation, and the driver
environment used if initialization completes. -/
structure InitWorld where
  launchErr : Option String
  newPageErr : Option String
  mkdirErr : Option String
  driver : DriverWorld

/-- The module top level: `chromium.launch()`, `browser.newPage()`, the
screenshots-directory preparation, then (after the 3 s timer)
`executeAutomation()`.  None of the three initialization steps is guarded by
try/catch/finally: a rejection there ends the program before
`executeAutomation` — and with it the finally block that closes the
browser — ever runs. -/
def programRun (w : InitWorld) : ProgramTrace :=
  match w.launchErr with
  | some _ => ⟨false, 0, true⟩
  | none =>
      match w.newPageErr with
      | some _ => ⟨true, 0, true⟩
      | none =>
          match w.mkdirErr with
          | some _ => ⟨true, 0, true⟩
          | none => ⟨true, (executeAutomation w.driver).browserCloses, false⟩

/-- Editable state of one text input, modelled from DOM semantics: current
value, caret position, and active selection bounds, if any. -/
structure FieldState where
  value : List Char
  caret : Nat
  sel : Option (Nat × Nat)
deriving DecidableEq, Repr

/-- A triple click (`click({ clickCount: 3 })`) in a single-line text input
selects its entire value. -/
def tripleClick (f : FieldState) : FieldState :=
  { f with sel := some (0, f.value.length), caret := f.value.length }

/-- The Backspace key: removes the active selection if there is one,
otherwise the character before the caret. -/
def pressBackspace (f : FieldState) : FieldState :=
  match f.sel with
  | some (a, b) => { value := f.value.take a ++ f.value.drop b, caret := a, sel := none }
  | none =>
      if f.caret = 0 then f
      else { value := f.value.take (f.caret - 1) ++ f.value.drop f.caret,
             caret := f.caret - 1, sel := none }

/-- The Delete key: removes the active selection if there is one, otherwise
the character after the caret. -/
def pressDelete (f : FieldState) : FieldState :=
  match f.sel with
  | some (a, b) => { value := f.value.take a ++ f.value.drop b, caret := a, sel := none }
  | none => { f with value := f.value.take f.caret ++ f.value.drop (f.caret + 1) }

/-- One keystroke of `locator.type`: replaces the active selection, or
inserts at the caret. -/
def typeChar (f : FieldState) (c : Char) : FieldState :=
  match f.sel with
  | some (a, b) =>
      { value := f.value.take a ++ [c] ++ f.value.drop b, caret := a + 1, sel := none }
  | none =>
      { value := f.value.take f.caret ++ [c] ++ f.value.drop f.caret,
        caret := f.caret + 1, sel := none }

/-- `locator.type(text, { delay })`: the keystrokes in order (the inter-key
delay does not affect the resulting value). -/
def typeText (f : FieldState) (text : List Char) : FieldState :=
  text.foldl typeChar f

/-- The field-level effect of `clear_and_type` once the locator resolved:
triple click, Backspace, then type the new text. -/
def clearAndType_field (f : FieldState) (text : List Char) : FieldState :=
  typeText (pressBackspace (tripleClick f)) text

/-- `locator.selectText()`, guarded by `.catch(() => {})`: selects the whole
value when the call succeeds and leaves the state unchanged when it fails. -/
def selectTextAttempt (ok : Bool) (f : FieldState) : FieldState :=
  if ok then { f with sel := some (0, f.value.length) } else f

/-- `locator.fill(v)`: sets the value outright, clearing any selection. -/
def fillValue (_f : FieldState) (v : List Char) : FieldState :=
  { value := v, caret := v.length, sel := none }

/-- `locator.inputValue()`: read the current value back. -/
def inputValue (f : FieldState) : List Char := f.value

/-- The field-level clear-then-fill sequence of `fill_specific_field`: click
into the field (placing the caret at `clickCaret` with no selection),
best-effort `selectText`, the Delete key, then `fill`. -/
def fillFieldSequence (selectOk : Bool) (clickCaret : Nat) (f : FieldState)
    (v : List Char) : FieldState :=
  fillValue (pressDelete (selectTextAttempt selectOk { f with caret := clickCaret, sel := none })) v

/-- One form input of the page: its `type` attribute and current value. -/
structure Inp where
  ty : String
  val : List Char
deriving DecidableEq, Repr

/-- The indices, in document order, of the password inputs of a page — the
list `page.locator('input[type="password"]').all()` ranges over. -/
def passwordIdxs (page : List Inp) : List Nat :=
  (List.range page.length).filter (fun i => (page.getD i ⟨"", []⟩).ty = "password")

/-- The `fill_specific_field` special path for `confirmPassword` on a page
with at least two password fields: take `passwordFields[1]` — the second
password input in document order — and run the clear-then-fill sequence on
it alone (the click focuses it, so the Delete keypress also lands on it);
the verifying read-back then sees the filled value.  With fewer than two
password fields the special path is skipped and the page is left unchanged
by it. -/
def fillConfirmPassword (page : List Inp) (selectOk : Bool) (v : List Char) : List Inp :=
  match (passwordIdxs page)[1]? with
  | some j =>
      let fj := page.getD j ⟨"", []⟩
      let fj' := fillFieldSequence selectOk 0 ⟨fj.val, 0, none⟩ v
      page.set j { fj with val := fj'.value }
  | none => page

/-- Replace a world's behaviour on every frame-scoped locator, leaving the
main document and the non-locator primitives untouched. -/
def overrideFrame (w : ToolWorld) (aErr : Locator → Option String)
    (vAt : Locator → Option Nat) (mc : Locator → Nat)
    (cErr : Locator → Option String) : ToolWorld :=
  { w with
    actionErr := fun l => match l.scope with
      | .mainDoc => w.actionErr l
      | .firstFrame => aErr l
    visibleAt := fun l => match l.scope with
      | .mainDoc => w.visibleAt l
      | .firstFrame => vAt l
    matchCount := fun l => match l.scope with
      | .mainDoc => w.matchCount l
      | .firstFrame => mc l
    countErr := fun l => match l.scope with
      | .mainDoc => w.countErr l
      | .firstFrame => cErr l }

/-- The resolution order the specification claims, written from the spec's
words for comparison with the code's resolvers: structural selector on the
main document, free text on the main document, structural selector in the
first embedded frame, free text in the first embedded frame — first success
wins. -/
def specClaimedResolution (w : ToolWorld) (sel : String) : Option (Scope × LocKind) :=
  if w.actionErr ((pageLocator sel).firstMatch) = none then some (.mainDoc, .css)
  else if w.actionErr ((pageGetByText sel).firstMatch) = none then some (.mainDoc, .text)
  else if w.actionErr ((frameCssLocator sel).firstMatch) = none then some (.firstFrame, .css)
  else if w.actionErr ((frameGetByText sel).firstMatch) = none then some (.firstFrame, .text)
  else none

/-- All four interpretations of the hint fail to produce a clickable
element in this world. -/
def allStrategiesFail (w : ToolWorld) (sel : String) : Prop :=
  w.actionErr ((pageLocator sel).firstMatch) ≠ none ∧
  w.actionErr ((pageGetByText sel).firstMatch) ≠ none ∧
  w.actionErr ((frameCssLocator sel).firstMatch) ≠ none ∧
  w.actionErr ((frameGetByText sel).firstMatch) ≠ none

/-- A run in which every element action succeeds but navigation fails at the
network level. -/
def gotoFailWorld : ToolWorld :=
  { actionErr := fun _ => none
    visibleAt := fun _ => some 0
    matchCount := fun _ => 1
    countErr := fun _ => none
    gotoErr := some "net::ERR_CONNECTION_REFUSED"
    waitLoadErr := none
    screenshotErr := none
    writeFileErr := none
    frameBodyHTML := .ok "" }

/-- A run in which the hint matches — as a structural selector — only inside
the first embedded frame. -/
def frameOnlyWorld : ToolWorld :=
  { actionErr := fun l => match l.scope, l.kind with
      | .firstFrame, .css => none
      | _, _ => some "Timeout 5000ms exceeded"
    visibleAt := fun _ => none
    matchCount := fun _ => 0
    countErr := fun _ => none
    gotoErr := none
    waitLoadErr := none
    screenshotErr := none
    writeFileErr := none
    frameBodyHTML := .ok "<form></form>" }

/-- A run in which no interpretation of the hint matches anywhere. -/
def nothingMatchesWorld : ToolWorld :=
  { actionErr := fun _ => some "Timeout 5000ms exceeded"
    visibleAt := fun _ => none
    matchCount := fun _ => 0
    countErr := fun _ => none
    gotoErr := none
    waitLoadErr := none
    screenshotErr := none
    writeFileErr := none
    frameBodyHTML := .ok "<form></form>" }

/-- A run in which everything succeeds. -/
def allOkWorld : ToolWorld :=
  { actionErr := fun _ => none
    visibleAt := fun _ => some 100
    matchCount := fun _ => 3
    countErr := fun _ => none
    gotoErr := none
    waitLoadErr := none
    screenshotErr := none
    writeFileErr := none
    frameBodyHTML := .ok "<form></form>" }

theorem screenshotPathFor_succ_injective :
    Function.Injective (fun i : Nat => screenshotPathFor (i + 1)) := by
  intro a b h
  have := screenshotPathFor_injective h
  omega

/-- C6: calling the screenshot-path allocator N times within one run yields N
pairwise-distinct file paths — the produced list has length N and no
duplicates — and the in-memory counter has increased monotonically to N,
each path rendering the counter zero-padded. -/
theorem C6_screenshot_paths_distinct (N : Nat) :
    (screenshotPaths N).1 = N ∧ ((screenshotPaths N).2).length = N ∧
      ((screenshotPaths N).2).Nodup := by
  have h := screenshotPaths_spec N
  refine ⟨?_, ?_, ?_⟩
  · rw [h]
  · rw [h]; simp
  · rw [h]; exact (List.nodup_range N).map screenshotPathFor_succ_injective

/-- C10: the truthiness test guarding `getLocator`'s iframe fallback is
always satisfied (the main-page locator is an object), so `getLocator`
returns the first-match locator of the main document for every selector, and
the tools built on it — `clear_and_type`, `wait_for_element`,
`find_elements` — are insensitive to arbitrary changes of the embedded
frame's contents: they only ever search the main document. -/
theorem C10_getLocator_main_only :
    (∀ s, getLocator s = (pageLocator s).firstMatch ∧ (getLocator s).scope = .mainDoc) ∧
    (∀ w aErr vAt mc cErr sel txt tArg,
      clearAndType_exec (overrideFrame w aErr vAt mc cErr) sel txt
          = clearAndType_exec w sel txt ∧
      waitForElement_exec (overrideFrame w aErr vAt mc cErr) sel tArg
          = waitForElement_exec w sel tArg ∧
      findElements_exec (overrideFrame w aErr vAt mc cErr) sel
          = findElements_exec w sel) := by
  constructor
  · intro s
    constructor
    · simp [getLocator, locatorTruthy]
    · simp [getLocator, locatorTruthy, pageLocator, Locator.firstMatch]
  · intro w aErr vAt mc cErr sel txt tArg
    refine ⟨?_, ?_, ?_⟩ <;>
      simp [clearAndType_exec, waitForElement_exec, findElements_exec, overrideFrame,
        getLocator, locatorTruthy, pageLocator, Locator.firstMatch]

/-- C1 counterexample: the claim says no tool invocation propagates an
exception past the tool boundary, but `open_url` has no try/catch — when
`page.goto` rejects, the invocation throws instead of returning a result
string — and so does `take_screenshot` when the capture fails. -/
theorem C1_counterexample :
    openURL_exec gotoFailWorld "https://ui.chaicode.com" =
        .error "net::ERR_CONNECTION_REFUSED" ∧
      takeScreenShot_exec
          { gotoFailWorld with gotoErr := none, screenshotErr := some "page closed" } 0 =
        .error "page closed" := by
  constructor <;> rfl

/-- C1 amended: the resolver-based tools — `click_element` (both variants),
`clear_and_type`, `wait_for_element`, `find_elements` — and
`dump_iframe_html` complete with a result string on every input and every
primitive outcome; `open_url` and `take_screenshot` return a result string
only when their unguarded primitives (`goto` and the post-navigation wait;
`screenshot` and `writeFileSync`) all succeed, and otherwise propagate the
exception to the driver boundary. -/
theorem C1_tool_results_amended :
    (∀ w sel, ((clickElement_exec w sel).outcome).returnsOk = true) ∧
    (∀ w sel, ((clickElementA_exec w sel).outcome).returnsOk = true) ∧
    (∀ w sel txt, (clearAndType_exec w sel txt).returnsOk = true) ∧
    (∀ w sel tArg, ((waitForElement_exec w sel tArg).1).returnsOk = true) ∧
    (∀ w sel, (findElements_exec w sel).returnsOk = true) ∧
    (∀ w, (dumpIframeHTML_exec w).returnsOk = true) ∧
    (∀ w url, w.gotoErr = none → w.waitLoadErr = none →
      (openURL_exec w url).returnsOk = true) ∧
    (∀ w c, w.screenshotErr = none → w.writeFileErr = none →
      (takeScreenShot_exec w c).returnsOk = true) := by
  refine ⟨?_, ?_, ?_, ?_, ?_, ?_, ?_, ?_⟩
  · intro w sel
    obtain ⟨aErr, vAt, mc, cErr, g, wl, se, wf, fb⟩ := w
    unfold clickElement_exec
    cases wf <;> split_ifs <;> rfl
  · intro w sel
    unfold clickElementA_exec
    split_ifs <;> rfl
  · intro w sel txt
    unfold clearAndType_exec
    cases w.actionErr (getLocator sel) <;> rfl
  · intro w sel tArg
    unfold waitForElement_exec waitForVisible
    cases w.visibleAt (getLocator sel) with
    | none => rfl
    | some t => by_cases h : t ≤ jsOrDefault tArg <;> simp [h, JSResult.returnsOk]
  · intro w sel
    unfold findElements_exec
    cases w.countErr (getLocator sel) with
    | none => by_cases h : w.matchCount (getLocator sel) = 0 <;> simp [h, JSResult.returnsOk]
    | some e => rfl
  · intro w
    unfold dumpIframeHTML_exec
    cases w.frameBodyHTML with
    | ok h => cases w.writeFileErr <;> rfl
    | error e => rfl
  · intro w url hg hw
    simp only [openURL_exec, hg, hw]
    rfl
  · intro w c hs hw
    simp only [takeScreenShot_exec, hs, hw]
    rfl

/-- C1 amended, witnessed: the universally quantified parts applied at a
concrete world, and the guarded parts with their hypotheses discharged at
`allOkWorld`. -/
theorem C1_tool_results_amended_witness :
    ((clickElement_exec nothingMatchesWorld "button#go").outcome).returnsOk = true ∧
      (openURL_exec allOkWorld "https://ui.chaicode.com").returnsOk = true ∧
      (takeScreenShot_exec allOkWorld 0).returnsOk = true :=
  ⟨C1_tool_results_amended.1 nothingMatchesWorld "button#go",
   C1_tool_results_amended.2.2.2.2.2.2.1 allOkWorld "https://ui.chaicode.com" rfl rfl,
   C1_tool_results_amended.2.2.2.2.2.2.2 allOkWorld 0 rfl rfl⟩

/-- C2 counterexample: on a hint that matches only as a structural selector
inside the first embedded frame, the claimed four-strategy order would
resolve via that third strategy, but the unnamed variant's `click_element`
never tries a structural selector inside the frame — it reports failure
instead. -/
theorem C2_counterexample :
    (clickElement_exec frameOnlyWorld "div.signup").resolvedVia = none ∧
      specClaimedResolution frameOnlyWorld "div.signup" = some (.firstFrame, .css) ∧
      (clickElement_exec frameOnlyWorld "div.signup").resolvedVia ≠
        specClaimedResolution frameOnlyWorld "div.signup" := by
  refine ⟨rfl, rfl, ?_⟩
  intro h
  exact Option.noConfusion
    (show (none : Option (Scope × LocKind)) = some (.firstFrame, .css) from h)

/-- C2 amended: `assignment.js`'s `click_element` does try the four
strategies in the claimed order, stopping at the first success; the unnamed
variant's `click_element` tries only three — structural selector on the main
document, free text on the main document, free text in the first frame — and
never resolves via a structural selector in the frame.  In both variants a
hint that matches as a structural selector on the main document resolves via
that match, and whenever either main-document interpretation matches,
resolution happens in the main document, before any frame is consulted. -/
theorem C2_resolution_order_amended :
    (∀ w sel, (clickElementA_exec w sel).resolvedVia = specClaimedResolution w sel) ∧
    (∀ w sel, w.actionErr ((pageLocator sel).firstMatch) = none →
      (clickElement_exec w sel).resolvedVia = some (.mainDoc, .css) ∧
      (clickElementA_exec w sel).resolvedVia = some (.mainDoc, .css)) ∧
    (∀ w sel, (clickElement_exec w sel).resolvedVia ≠ some (.firstFrame, .css)) ∧
    (∀ w sel,
      (w.actionErr ((pageLocator sel).firstMatch) = none ∨
        w.actionErr ((pageGetByText sel).firstMatch) = none) →
      (∃ k, (clickElement_exec w sel).resolvedVia = some (.mainDoc, k)) ∧
      (∃ k, (clickElementA_exec w sel).resolvedVia = some (.mainDoc, k))) := by
  have hget : ∀ sel, getLocator sel = (pageLocator sel).firstMatch := by
    intro sel; simp [getLocator, locatorTruthy]
  refine ⟨?_, ?_, ?_, ?_⟩
  · intro w sel
    obtain ⟨aErr, vAt, mc, cErr, g, wl, se, wf, fb⟩ := w
    unfold clickElementA_exec specClaimedResolution
    split_ifs <;> cases wf <;> rfl
  · intro w sel h
    obtain ⟨aErr, vAt, mc, cErr, g, wl, se, wf, fb⟩ := w
    constructor
    · unfold clickElement_exec
      rw [hget sel]
      simp_all
    · unfold clickElementA_exec
      simp_all
  · intro w sel h
    obtain ⟨aErr, vAt, mc, cErr, g, wl, se, wf, fb⟩ := w
    unfold clickElement_exec at h
    rw [hget sel] at h
    revert h
    cases wf <;> split_ifs <;> simp
  · intro w sel h
    obtain ⟨aErr, vAt, mc, cErr, g, wl, se, wf, fb⟩ := w
    rcases h with h | h
    · refine ⟨⟨.css, ?_⟩, ⟨.css, ?_⟩⟩
      · unfold clickElement_exec
        rw [hget sel]
        simp_all
      · unfold clickElementA_exec
        simp_all
    · by_cases hcss : aErr ((pageLocator sel).firstMatch) = none
      · refine ⟨⟨.css, ?_⟩, ⟨.css, ?_⟩⟩
        · unfold clickElement_exec
          rw [hget sel]
          simp_all
        · unfold clickElementA_exec
          simp_all
      · refine ⟨⟨.text, ?_⟩, ⟨.text, ?_⟩⟩
        · unfold clickElement_exec
          rw [hget sel]
          simp_all
        · unfold clickElementA_exec
          simp_all

/-- C2 amended, witnessed: in a world where every strategy matches, both
variants resolve via the structural selector on the main document. -/
theorem C2_resolution_order_amended_witness :
    (clickElement_exec allOkWorld "Sign Up").resolvedVia = some (.mainDoc, .css) ∧
      (clickElementA_exec allOkWorld "Sign Up").resolvedVia = some (.mainDoc, .css) :=
  C2_resolution_order_amended.2.1 allOkWorld "Sign Up" rfl

/-- C3 counterexample: the browser is launched at module load; when
`browser.newPage()` then rejects, the program ends with the acquired Page
Session never released — `browser.close()` is called zero times, not once. -/
theorem C3_counterexample :
    (programRun
        { launchErr := none
          newPageErr := some "browserContext.newPage: Target page, context or browser has been closed"
          mkdirErr := none
          driver := ⟨.completed "unused", none, none⟩ }).browserLaunched = true ∧
      (programRun
        { launchErr := none
          newPageErr := some "browserContext.newPage: Target page, context or browser has been closed"
          mkdirErr := none
          driver := ⟨.completed "unused", none, none⟩ }).browserCloses = 0 :=
  ⟨rfl, rfl⟩

/-- C3 amended: on every exit path of the Running phase — agent completion,
round-cap exhaustion (the run rejecting with the max-turns error), or any
other exception escaping the run — the browser is released exactly once by
the finally block; but when initialization partially fails after the browser
was launched (`newPage` or the screenshots-directory preparation rejecting),
the browser is never released, because the unguarded module top level has no
cleanup handler. -/
theorem C3_release_amended :
    (∀ dw : DriverWorld, (executeAutomation dw).browserCloses = 1) ∧
    (∀ w : InitWorld, w.launchErr = none → w.newPageErr ≠ none →
      (programRun w).browserLaunched = true ∧ (programRun w).browserCloses = 0) := by
  constructor
  · intro dw
    cases h : dw.runOutcome <;> simp [executeAutomation, h]
  · intro w hl hn
    obtain ⟨l, np, mk, dr⟩ := w
    subst hl
    cases np with
    | none => exact absurd rfl hn
    | some e => exact ⟨rfl, rfl⟩

/-- C3 amended, witnessed: a completed run closes the browser exactly once,
and a run whose `newPage` rejects never closes it. -/
theorem C3_release_amended_witness :
    (executeAutomation ⟨.completed "done", none, none⟩).browserCloses = 1 ∧
      ((programRun
          { launchErr := none, newPageErr := some "boom", mkdirErr := none
            driver := ⟨.completed "done", none, none⟩ }).browserLaunched = true ∧
        (programRun
          { launchErr := none, newPageErr := some "boom", mkdirErr := none
            driver := ⟨.completed "done", none, none⟩ }).browserCloses = 0) :=
  ⟨C3_release_amended.1 ⟨.completed "done", none, none⟩,
   C3_release_amended.2
     { launchErr := none, newPageErr := some "boom", mkdirErr := none
       driver := ⟨.completed "done", none, none⟩ } rfl (by simp)⟩

/-- C4 counterexample: with round cap 1 and a 5-round task the run rejects
with the max-turns error, so the driver takes its error path — it logs the
error and attempts the best-effort screenshot instead of logging
completion — which makes cap exhaustion distinguishable at the driver layer
from agent-declared completion, contrary to the claim. -/
theorem C4_counterexample :
    (executeAutomationCapped 1 5 none).errorLogged = true ∧
      (executeAutomationCapped 1 5 none).completedLogged = false ∧
      executeAutomationCapped 1 5 none ≠ executeAutomationCapped 5 5 none := by
  refine ⟨rfl, rfl, ?_⟩
  intro h
  have hc := congrArg DriverTrace.completedLogged h
  exact Bool.noConfusion (show false = true from hc)

/-- C4 amended: when the round cap is exhausted before the task's rounds are
done, the run rejects with the max-turns error; the driver catches it at its
boundary, so no error propagates out of `executeAutomation` (when
`browser.close` itself succeeds) and the browser is still released exactly
once — but the exit is the error path (error logged, best-effort screenshot
attempted, completion not logged), distinguishable from agent-declared
completion. -/
theorem C4_cap_exhaustion_amended (maxTurns steps : Nat) (h : maxTurns < steps) :
    (executeAutomationCapped maxTurns steps none).raised = none ∧
      (executeAutomationCapped maxTurns steps none).browserCloses = 1 ∧
      (executeAutomationCapped maxTurns steps none).errorLogged = true ∧
      (executeAutomationCapped maxTurns steps none).completedLogged = false := by
  have hrun : runAgent maxTurns steps = .maxTurnsExceeded := by
    unfold runAgent
    have : ¬ steps ≤ maxTurns := by omega
    simp [this]
  unfold executeAutomationCapped
  rw [hrun]
  exact ⟨rfl, rfl, rfl, rfl⟩

/-- C4 amended, witnessed at round cap 1 and a 5-round task. -/
theorem C4_cap_exhaustion_amended_witness :
    (executeAutomationCapped 1 5 none).raised = none ∧
      (executeAutomationCapped 1 5 none).browserCloses = 1 ∧
      (executeAutomationCapped 1 5 none).errorLogged = true ∧
      (executeAutomationCapped 1 5 none).completedLogged = false :=
  C4_cap_exhaustion_amended 1 5 (by omega)

/-- C5 counterexample: in `assignment.js`, when every strategy fails,
`click_element` returns its failure string but writes nothing — the first
frame's body markup is not persisted to the debug path, contrary to the
claim that resolution failure always produces the diagnostic dump. -/
theorem C5_counterexample :
    (clickElementA_exec nothingMatchesWorld "button#go").writes = [] ∧
      (clickElementA_exec nothingMatchesWorld "button#go").outcome =
        .ok ("❌ Failed to click element: button#go") :=
  ⟨rfl, rfl⟩

/-- C5 amended: when all strategies fail, both variants return an explicit
failure-result string rather than raising; only the unnamed variant persists
the first embedded frame's serialized body markup to the fixed debug path
(`screenshots/iframe_debug.html`, assuming the write itself succeeds), while
`assignment.js`'s `click_element` performs no dump. -/
theorem C5_notfound_amended (w : ToolWorld) (sel : String) (h : allStrategiesFail w sel) :
    ((clickElement_exec w sel).outcome).returnsOk = true ∧
      (w.writeFileErr = none →
        (clickElement_exec w sel).writes = [(iframeDebugPath, frameHTMLorEmpty w)]) ∧
      (clickElementA_exec w sel).outcome = .ok ("❌ Failed to click element: " ++ sel) ∧
      (clickElementA_exec w sel).writes = [] := by
  obtain ⟨h1, h2, h3, h4⟩ := h
  have hget : getLocator sel = (pageLocator sel).firstMatch := by
    simp [getLocator, locatorTruthy]
  obtain ⟨aErr, vAt, mc, cErr, g, wl, se, wf, fb⟩ := w
  simp only [allStrategiesFail] at *
  refine ⟨?_, ?_, ?_, ?_⟩
  · unfold clickElement_exec
    rw [hget]
    cases wf <;> simp_all [JSResult.returnsOk]
  · intro hwf
    unfold clickElement_exec
    rw [hget]
    simp_all
  · unfold clickElementA_exec
    simp_all
  · unfold clickElementA_exec
    simp_all

/-- C5 amended, witnessed: a world where nothing matches and the write
succeeds. -/
theorem C5_notfound_amended_witness :
    ((clickElement_exec nothingMatchesWorld "button#go").outcome).returnsOk = true ∧
      (clickElement_exec nothingMatchesWorld "button#go").writes =
        [(iframeDebugPath, "<form></form>")] ∧
      (clickElementA_exec nothingMatchesWorld "button#go").writes = [] := by
  have h := C5_notfound_amended nothingMatchesWorld "button#go"
    ⟨by simp [nothingMatchesWorld], by simp [nothingMatchesWorld],
     by simp [nothingMatchesWorld], by simp [nothingMatchesWorld]⟩
  exact ⟨h.1, h.2.1 rfl, h.2.2.2⟩

theorem typeText_from_end (text : List Char) :
    ∀ v : List Char, typeText ⟨v, v.length, none⟩ text = ⟨v ++ text, (v ++ text).length, none⟩ := by
  induction text with
  | nil => intro v; simp [typeText]
  | cons c cs ih =>
      intro v
      have h1 : typeChar ⟨v, v.length, none⟩ c = ⟨v ++ [c], (v ++ [c]).length, none⟩ := by
        simp [typeChar]
      calc typeText ⟨v, v.length, none⟩ (c :: cs)
          = typeText (typeChar ⟨v, v.length, none⟩ c) cs := rfl
        _ = typeText ⟨v ++ [c], (v ++ [c]).length, none⟩ cs := by rw [h1]
        _ = ⟨(v ++ [c]) ++ cs, ((v ++ [c]) ++ cs).length, none⟩ := ih (v ++ [c])
        _ = ⟨v ++ (c :: cs), (v ++ (c :: cs)).length, none⟩ := by simp

/-- C7: for every pre-existing field content and every text X, the
clear-then-type sequence of `clear_and_type` (triple click, Backspace, type)
leaves the field holding exactly X, and likewise the clear-then-fill
sequence of `fill_specific_field` (click, best-effort selectText, Delete,
fill) reads back exactly X — the old content is neither prepended nor
appended. -/
theorem C7_clear_and_type_exact :
    (∀ (f : FieldState) (text : List Char), (clearAndType_field f text).value = text) ∧
    (∀ (selectOk : Bool) (clickCaret : Nat) (f : FieldState) (v : List Char),
      inputValue (fillFieldSequence selectOk clickCaret f v) = v) := by
  constructor
  · intro f text
    have h : pressBackspace (tripleClick f) = ⟨[], 0, none⟩ := by
      simp [tripleClick, pressBackspace]
    unfold clearAndType_field
    rw [h]
    have teq := typeText_from_end text []
    simp only [List.length_nil, List.nil_append] at teq
    rw [teq]
  · intro selectOk clickCaret f v
    rfl

theorem passwordIdxs_nodup (page : List Inp) : (passwordIdxs page).Nodup :=
  (List.nodup_range page.length).filter _

theorem passwordIdxs_lt (page : List Inp) {j : Nat} (h : j ∈ passwordIdxs page) :
    j < page.length :=
  List.mem_range.mp (List.mem_of_mem_filter h)

/-- C8: on a page with (at least) two password fields, the `confirmPassword`
fill targets the second password field in document order: its value becomes
exactly the typed text, while the first password field — indeed every other
input — is left unchanged. -/
theorem C8_second_password_untouched_first (page : List Inp) (selectOk : Bool)
    (v : List Char) (i0 j : Nat)
    (h0 : (passwordIdxs page)[0]? = some i0)
    (h1 : (passwordIdxs page)[1]? = some j) :
    (fillConfirmPassword page selectOk v)[i0]? = page[i0]? ∧
      ((fillConfirmPassword page selectOk v)[j]?).map Inp.val = some v := by
  have hnd := passwordIdxs_nodup page
  have h0lt : 0 < (passwordIdxs page).length := by
    by_contra hc
    rw [List.getElem?_len_le (by omega)] at h0
    exact Option.noConfusion h0
  have hne : i0 ≠ j := by
    intro he
    subst he
    have h01 : (0 : Nat) = 1 := List.getElem?_inj h0lt hnd (h0.trans h1.symm)
    omega
  have hjmem : j ∈ passwordIdxs page := List.getElem?_mem h1
  have hjlt : j < page.length := passwordIdxs_lt page hjmem
  constructor
  · simp only [fillConfirmPassword, h1]
    exact List.getElem?_set_ne (fun he => hne he.symm)
  · simp only [fillConfirmPassword, h1]
    rw [List.getElem?_set_eq_of_lt _ hjlt]
    simp [fillFieldSequence, fillValue]

/-- A sign-up form holding a text input followed by two password inputs with
pre-existing contents. -/
def signupPage : List Inp :=
  [⟨"text", "Test".data⟩, ⟨"password", "old-first".data⟩, ⟨"password", "old-second".data⟩]

/-- C8, witnessed: on the concrete page the first password field (index 1)
keeps its old value and the second (index 2) reads back the typed text. -/
theorem C8_second_password_untouched_first_witness :
    (fillConfirmPassword signupPage true "TestPassword123!".data)[1]? = signupPage[1]? ∧
      ((fillConfirmPassword signupPage true "TestPassword123!".data)[2]?).map Inp.val =
        some "TestPassword123!".data :=
  C8_second_password_untouched_first signupPage true "TestPassword123!".data 1 2 rfl rfl

/-- C9: `wait_for_element` applies the fixed 10000 ms default when the
timeout argument is absent; on a hint whose element never becomes visible it
returns — rather than raises — a failure-result string naming the timeout
value used, after exactly the applied timeout (no earlier, and with zero
overhead); and in general its elapsed time never exceeds the applied
timeout, so it never blocks past it. -/
theorem C9_wait_for_element_timeout :
    jsOrDefault none = 10000 ∧
    (∀ w sel tArg, (waitForElement_exec w sel tArg).2 ≤ jsOrDefault tArg) ∧
    (∀ (w : ToolWorld) sel tArg, w.visibleAt (getLocator sel) = none →
      (waitForElement_exec w sel tArg).1 =
        .ok ("Element " ++ sel ++ " did not appear in " ++ toString (jsOrDefault tArg) ++ "ms") ∧
      (waitForElement_exec w sel tArg).2 = jsOrDefault tArg) := by
  refine ⟨rfl, ?_, ?_⟩
  · intro w sel tArg
    simp only [waitForElement_exec, waitForVisible]
    cases h : w.visibleAt (getLocator sel) with
    | none => simp
    | some t => by_cases ht : t ≤ jsOrDefault tArg <;> simp [ht]
  · intro w sel tArg h
    simp only [waitForElement_exec, waitForVisible, h]
    exact ⟨trivial, trivial⟩

/-- C9, witnessed: with the timeout argument absent and an element that never
becomes visible, the call returns the failure string naming 10000 ms and
takes exactly the default 10000 ms. -/
theorem C9_wait_for_element_timeout_witness :
    (waitForElement_exec nothingMatchesWorld "input#email" none).1 =
        .ok ("Element " ++ "input#email" ++ " did not appear in "
          ++ toString (jsOrDefault none) ++ "ms") ∧
      (waitForElement_exec nothingMatchesWorld "input#email" none).2 = jsOrDefault none :=
  C9_wait_for_element_timeout.2.2 nothingMatchesWorld "input#email" none rfl

end Automation
